import Mathlib

/-!
Shallow embedding of the Monopoly Online client (a React/WebSocket browser
application) for verification of its specification.

The embedding translates the repository's JavaScript sources into pure Lean
definitions:

* `src/config.js`                        → `Monopoly.config`
* `src/services/WebSocketService.js`     → `Monopoly.WebSocketService` and its
  operations (`attemptReconnect`, `handleMessage`, `on`, `off`, `send`,
  `requestJoin`, `createGame`, `disconnect`, ...)
* `src/components/LoginScreen.js`        → `Monopoly.validateLobbyCode`
* `src/theme.js`                         → `Monopoly.themes`, `Monopoly.applyTheme`,
  `Monopoly.getStoredTheme`
* `src/App.js`                           → scene state machine and
  `Monopoly.handleJoinClick`
* `src/components/GameBoard.js`          → `Monopoly.sortedBoard` and the four
  tile groups

Platform library functions that are not part of the repository (`JSON.parse`,
`JSON.stringify`, the WebSocket object, timers) are modelled as explicit
parameters or as abstract identifiers, so every repository-level branch is
translated faithfully while the browser environment stays abstract.
JavaScript callbacks stored in the handler map are modelled by an abstract
handler type `H`; invoking a handler is modelled by reporting which handler
was called and with which argument.
-/

namespace Monopoly

/-! ### Configuration (src/config.js) -/

structure ServerConfig where
  url : String
  reconnectInterval : Nat
  maxReconnectAttempts : Nat
deriving Repr, DecidableEq

structure GameConfig where
  lobbyCodeLength : Nat
  maxPlayers : Nat
deriving Repr, DecidableEq

structure Config where
  server : ServerConfig
  game : GameConfig
deriving Repr, DecidableEq

/-- The configuration object of `src/config.js`, field for field. -/
def config : Config :=
  { server :=
      { url := "ws://localhost:8080"
        reconnectInterval := 3000
        maxReconnectAttempts := 5 }
    game :=
      { lobbyCodeLength := 6
        maxPlayers := 8 } }

/-! ### JavaScript values

A model of the JavaScript values that flow through the message layer.
`undefined` represents the JavaScript `undefined` value, which arises from
accessing an absent object property; `JSON.parse` itself never produces it. -/

inductive Json where
  | null
  | undefined
  | bool (b : Bool)
  | num (n : Int)
  | str (s : String)
  | arr (elems : List Json)
  | obj (fields : List (String × Json))
deriving Repr

/-- JavaScript truthiness of a value (`undefined`, `null`, `false`, `0` and
the empty string are falsy; arrays and objects are always truthy). -/
def Json.truthy : Json → Bool
  | .null => false
  | .undefined => false
  | .bool b => b
  | .num n => n != 0
  | .str s => s != ""
  | .arr _ => true
  | .obj _ => true

/-- JavaScript property access `j[key]`: yields the field's value on an
object that has the field and `undefined` otherwise. -/
def Json.getField (j : Json) (key : String) : Json :=
  match j with
  | .obj fields => (fields.lookup key).getD .undefined
  | _ => .undefined

/-! ### JavaScript `Map` with string keys

`WebSocketService.messageHandlers` is a `new Map()` whose keys are the
message-type strings passed to `on`.  `Map.set` overwrites the entry of an
existing key and otherwise appends; `Map.get`/`Map.has` use SameValueZero
key equality, under which a non-string value never equals a string key. -/

def mapSet {α : Type} (m : List (String × α)) (k : String) (v : α) : List (String × α) :=
  if (m.lookup k).isSome then
    m.map (fun p => if p.1 = k then (k, v) else p)
  else
    m ++ [(k, v)]

def mapDelete {α : Type} (m : List (String × α)) (k : String) : List (String × α) :=
  m.filter (fun p => p.1 ≠ k)

/-- `Map.get` applied to an arbitrary JavaScript value as key: only a string
key can match an entry, since all stored keys are strings. -/
def mapGetJsonKey {α : Type} (m : List (String × α)) : Json → Option α
  | .str s => m.lookup s
  | _ => none

/-! ### WebSocketService (src/services/WebSocketService.js) -/

/-- The mutable fields of the `WebSocketService` singleton.  The socket and
the stored `setTimeout` id are abstract numeric handles; `H` is the type of
the registered handler callbacks. -/
structure WebSocketService (H : Type) where
  ws : Option Nat
  messageHandlers : List (String × H)
  isConnected : Bool
  reconnectAttempts : Nat
  reconnectTimer : Option Nat
deriving Repr

/-- The constructor of `WebSocketService`. -/
def WebSocketService.init {H : Type} : WebSocketService H :=
  { ws := none
    messageHandlers := []
    isConnected := false
    reconnectAttempts := 0
    reconnectTimer := none }

/-- `attemptReconnect`: if the attempt counter has reached
`config.server.maxReconnectAttempts` it returns without scheduling anything;
otherwise it increments the counter and schedules a reconnection after
`config.server.reconnectInterval` milliseconds.  `newTimerId` is the id
returned by `setTimeout`; the second component of the result is the delay of
the scheduled attempt (`none` when nothing was scheduled). -/
def attemptReconnect {H : Type} (svc : WebSocketService H) (newTimerId : Nat) :
    WebSocketService H × Option Nat :=
  if svc.reconnectAttempts ≥ config.server.maxReconnectAttempts then
    (svc, none)
  else
    ({ svc with
        reconnectAttempts := svc.reconnectAttempts + 1
        reconnectTimer := some newTimerId },
     some config.server.reconnectInterval)

/-- The `ws.onopen` callback installed by `connect`: marks the service
connected and resets the attempt counter to 0. -/
def handleOpen {H : Type} (svc : WebSocketService H) : WebSocketService H :=
  { svc with isConnected := true, reconnectAttempts := 0 }

/-- The `ws.onclose` callback installed by `connect`: marks the service
disconnected and calls `attemptReconnect`. -/
def handleClose {H : Type} (svc : WebSocketService H) (newTimerId : Nat) :
    WebSocketService H × Option Nat :=
  attemptReconnect { svc with isConnected := false } newTimerId

/-- Number of reconnection attempts actually scheduled over `n` consecutive
disconnect/failed-reconnect cycles starting from `svc` (each cycle runs
`attemptReconnect` once). -/
def countScheduled {H : Type} (svc : WebSocketService H) : Nat → Nat
  | 0 => 0
  | n + 1 =>
    let r := attemptReconnect svc 0
    (if r.2.isSome then 1 else 0) + countScheduled r.1 n

/-- Console diagnostics emitted by `handleMessage`. -/
inductive LogEvent where
  | parseError
  | noHandlerWarning (messageType : Json)
deriving Repr

/-- `handleMessage`: parses the raw string with `JSON.parse` (modelled by the
`parse` parameter, `none` meaning the parse threw), looks up
`message.type` in the handler map, and calls the registered handler with
`message.data || message`.  The result is the (unchanged) service state, the
handler invocation that took place (handler and argument), and the console
diagnostic that was emitted. -/
def handleMessage {H : Type} (parse : String → Option Json)
    (svc : WebSocketService H) (data : String) :
    WebSocketService H × Option (H × Json) × Option LogEvent :=
  match parse data with
  | none => (svc, none, some .parseError)
  | some message =>
    let messageType := message.getField "type"
    match mapGetJsonKey svc.messageHandlers messageType with
    | some handler =>
        (svc,
         some (handler,
               if (message.getField "data").truthy then message.getField "data"
               else message),
         none)
    | none => (svc, none, some (.noHandlerWarning messageType))

/-- `on(messageType, handler)` (named `wsOn` here since `on` is reserved in Lean): registers a handler in the map (the
`typeof handler !== 'function'` guard cannot fire in the model, where every
`H` value is a handler). -/
def wsOn {H : Type} (svc : WebSocketService H) (messageType : String) (handler : H) :
    WebSocketService H :=
  { svc with messageHandlers := mapSet svc.messageHandlers messageType handler }

/-- `off(messageType)` (named `wsOff` here): unregisters the handler of a message type. -/
def wsOff {H : Type} (svc : WebSocketService H) (messageType : String) :
    WebSocketService H :=
  { svc with messageHandlers := mapDelete svc.messageHandlers messageType }

/-- `send(type, data)`: returns `false` without transmitting when the service
is not connected or the socket is null; otherwise serializes `{type, data}`
with `JSON.stringify` (the `stringify` parameter, `none` meaning it threw)
and transmits it over the socket (`transmitOk = false` meaning `ws.send`
threw).  Result: the boolean returned to the caller and the frame actually
transmitted.  The function is total: no case throws to the caller. -/
def send {H : Type} (stringify : Json → Option String) (transmitOk : Bool)
    (svc : WebSocketService H) (type : String) (data : Json) :
    Bool × Option String :=
  if !svc.isConnected || svc.ws.isNone then
    (false, none)
  else
    match stringify (Json.obj [("type", Json.str type), ("data", data)]) with
    | none => (false, none)
    | some frame => if transmitOk then (true, some frame) else (false, none)

/-- `requestJoin(username, lobbyCode)`. -/
def requestJoin {H : Type} (stringify : Json → Option String) (transmitOk : Bool)
    (svc : WebSocketService H) (username lobbyCode : String) :
    Bool × Option String :=
  send stringify transmitOk svc "REQUEST_JOIN"
    (Json.obj [("username", Json.str username), ("lobby", Json.str lobbyCode)])

/-- `createGame(username)`. -/
def createGame {H : Type} (stringify : Json → Option String) (transmitOk : Bool)
    (svc : WebSocketService H) (username : String) :
    Bool × Option String :=
  send stringify transmitOk svc "GAME_CREATE"
    (Json.obj [("username", Json.str username)])

/-- Side effects of `disconnect` on the browser environment. -/
structure DisconnectEffects where
  cancelledTimer : Option Nat
  closedSocket : Option Nat
deriving Repr, DecidableEq

/-- JavaScript truthiness of the stored timer id (`if (this.reconnectTimer)`;
a numeric id of 0 would be falsy). -/
def truthyId : Option Nat → Bool
  | none => false
  | some n => n != 0

/-- `disconnect()`: cancels the pending reconnect timeout (when the stored id
is truthy), closes and nulls the socket, clears the connected flag, and
clears the whole handler map.  The stored timer id field itself is not
reassigned by the code. -/
def disconnect {H : Type} (svc : WebSocketService H) :
    WebSocketService H × DisconnectEffects :=
  ({ svc with ws := none, isConnected := false, messageHandlers := [] },
   { cancelledTimer := if truthyId svc.reconnectTimer then svc.reconnectTimer else none
     closedSocket := svc.ws })

/-! ### LoginScreen (src/components/LoginScreen.js) -/

/-- The whitespace characters removed by JavaScript `String.prototype.trim`
(ASCII whitespace, NBSP, BOM, the Unicode line/paragraph separators and the
Zs space separators). -/
def isJsWhitespace (c : Char) : Bool :=
  c = ' ' || c = '\t' || c = '\n' || c = '\r' ||
  c = Char.ofNat 0x0B || c = Char.ofNat 0x0C ||
  c = Char.ofNat 0xA0 || c = Char.ofNat 0x1680 ||
  (0x2000 ≤ c.toNat && c.toNat ≤ 0x200A) ||
  c = Char.ofNat 0x2028 || c = Char.ofNat 0x2029 ||
  c = Char.ofNat 0x202F || c = Char.ofNat 0x205F ||
  c = Char.ofNat 0x3000 || c = Char.ofNat 0xFEFF

/-- JavaScript `value.trim()`.  Strings are modelled as lists of characters;
on the ASCII strings the validators accept, the JavaScript UTF-16 length
equals the list length. -/
def jsTrim (s : List Char) : List Char :=
  ((s.dropWhile isJsWhitespace).reverse.dropWhile isJsWhitespace).reverse

/-- The regular expression test from `validateLobbyCode`:
a match of the whole string against one or more ASCII letters or digits
(`Char.isAlphanum` is exactly the class of the regex). -/
def regexAlnumTest (s : List Char) : Bool :=
  !s.isEmpty && s.all Char.isAlphanum

/-- `validateLobbyCode(value)`: returns `none` for an accepted code and the
error message shown to the user otherwise. -/
def validateLobbyCode (value : List Char) : Option String :=
  if (jsTrim value).isEmpty then
    some "Lobby code is required"
  else if value.length ≠ config.game.lobbyCodeLength then
    some ("Lobby code must be " ++ toString config.game.lobbyCodeLength ++ " characters")
  else if !regexAlnumTest value then
    some "Lobby code must contain only letters and numbers"
  else
    none

/-! ### Theme (src/theme.js) -/

/-- CSS custom properties of the dark theme. -/
def darkThemeProps : List (String × String) :=
    [("--bg-dark", "hsl(227, 69%, 2%)"),
     ("--bg", "hsl(221, 47%, 5%)"),
     ("--bg-light", "hsl(220, 29%, 10%)"),
     ("--text", "hsl(220, 100%, 98%)"),
     ("--text-muted", "hsl(220, 27%, 72%)"),
     ("--highlight", "hsl(220, 17%, 41%)"),
     ("--border", "hsl(220, 21%, 30%)"),
     ("--border-muted", "hsl(220, 30%, 20%)"),
     ("--primary", "hsl(220, 78%, 76%)"),
     ("--secondary", "hsl(40, 53%, 60%)"),
     ("--danger", "hsl(9, 26%, 64%)"),
     ("--warning", "hsl(52, 19%, 57%)"),
     ("--success", "hsl(146, 17%, 59%)"),
     ("--info", "hsl(217, 28%, 65%)")]

/-- CSS custom properties of the light theme. -/
def lightThemeProps : List (String × String) :=
    [("--bg-dark", "hsl(220, 45%, 91%)"),
     ("--bg", "hsl(220, 100%, 96%)"),
     ("--bg-light", "hsl(220, 100%, 100%)"),
     ("--text", "hsl(224, 75%, 6%)"),
     ("--text-muted", "hsl(220, 21%, 30%)"),
     ("--highlight", "hsl(220, 100%, 100%)"),
     ("--border", "hsl(220, 15%, 53%)"),
     ("--border-muted", "hsl(220, 21%, 65%)"),
     ("--primary", "hsl(221, 49%, 33%)"),
     ("--secondary", "hsl(44, 100%, 14%)"),
     ("--danger", "hsl(9, 21%, 41%)"),
     ("--warning", "hsl(52, 23%, 34%)"),
     ("--success", "hsl(147, 19%, 36%)"),
     ("--info", "hsl(217, 22%, 41%)")]

/-- The `themes` constant of `src/theme.js`. -/
def themes : List (String × List (String × String)) :=
  [("dark", darkThemeProps), ("light", lightThemeProps)]

/-- The parts of the browser environment the theme module touches: the CSS
custom properties set on `document.documentElement` and the persistent
`localStorage` key/value store. -/
structure BrowserState where
  rootStyle : List (String × String)
  localStorage : List (String × String)
deriving Repr, DecidableEq

/-- `localStorage.setItem`. -/
def setItem (st : List (String × String)) (k v : String) : List (String × String) :=
  mapSet st k v

/-- `localStorage.getItem` (`none` is JavaScript `null`). -/
def getItem (st : List (String × String)) (k : String) : Option String :=
  st.lookup k

/-- `applyTheme(themeName)`: for an unknown theme name it logs an error and
returns with the browser state untouched; otherwise it sets every CSS
property of the theme on the document root and stores the preference under
the `localStorage` key `theme`.  The boolean reports whether the
theme-not-found console error was emitted. -/
def applyTheme (themeName : String) (b : BrowserState) : BrowserState × Bool :=
  match themes.lookup themeName with
  | none => (b, true)
  | some theme =>
    ({ rootStyle := theme.foldl (fun acc pv => mapSet acc pv.1 pv.2) b.rootStyle
       localStorage := setItem b.localStorage "theme" themeName },
     false)

/-- `getStoredTheme()`: the stored preference, or `dark` when it is absent
(`null`) or falsy (the empty string). -/
def getStoredTheme (b : BrowserState) : String :=
  match getItem b.localStorage "theme" with
  | none => "dark"
  | some s => if s = "" then "dark" else s

/-! ### App scene state (src/App.js) -/

/-- The events of `App` that can run a state update: the twelve registered
message handlers plus the local UI callbacks.  Only `handleNewGame`
(`NEW_GAME`) and `handleJoinGame` (`JOIN_GAME`) call `setCurrentScene`. -/
inductive AppEvent where
  | serverError
  | newGame
  | joinGame
  | newPlayer
  | gameStart
  | nextTurn
  | playerData
  | choice
  | tileMessage
  | transaction
  | propertyTransfer
  | setPosition
  | toggleTheme
  | joinClick
  | closeError
deriving Repr, DecidableEq

/-- Initial value of the `currentScene` state hook. -/
def initialScene : String := "login"

/-- Effect of one `App` event on `currentScene`: `handleNewGame` and
`handleJoinGame` end with `setCurrentScene('game')`; no other code path
assigns the scene. -/
def sceneStep (scene : String) : AppEvent → String
  | .newGame => "game"
  | .joinGame => "game"
  | _ => scene

/-- The scenes `currentScene` can reach from the initial render through any
sequence of `App` events. -/
inductive ReachableScene : String → Prop where
  | init : ReachableScene initialScene
  | step {s : String} (e : AppEvent) : ReachableScene s → ReachableScene (sceneStep s e)

/-- The render guard `currentScene === 'login' && <LoginScreen .../>`. -/
def rendersLogin (scene : String) : Bool := scene == "login"

/-- The render guard `currentScene === 'game' && <GameBoard .../>`. -/
def rendersGame (scene : String) : Bool := scene == "game"

/-! ### handleJoinClick (src/App.js) -/

/-- The service state `handleJoinClick` sends on: the current one when it is
already connected, and otherwise the state produced by `await connect()`
(`connectResult = none` when `connect` rejected). -/
def effectiveService {H : Type} (svc : WebSocketService H)
    (connectResult : Option (WebSocketService H)) : Option (WebSocketService H) :=
  if svc.isConnected then some svc else connectResult

/-- The send-and-report tail of `handleJoinClick`: with an empty lobby code it
calls `createGame(username)`, otherwise `requestJoin(username, lobbyCode)`;
a `false` result sets a `CONNECTION_ERROR`.  Result: frames transmitted and
the error code set, if any. -/
def joinClickBody {H : Type} (stringify : Json → Option String) (transmitOk : Bool)
    (svc : WebSocketService H) (inputUsername lobbyCode : String) :
    List String × Option String :=
  if lobbyCode = "" then
    let r := createGame stringify transmitOk svc inputUsername
    (r.2.toList, if r.1 then none else some "CONNECTION_ERROR")
  else
    let r := requestJoin stringify transmitOk svc inputUsername lobbyCode
    (r.2.toList, if r.1 then none else some "CONNECTION_ERROR")

/-- `handleJoinClick(inputUsername, lobbyCode)`: connects first when the
service is not connected (a rejected `connect` is caught and reported as a
`CONNECTION_ERROR`), then creates or joins a game depending on whether the
lobby code is empty.  Result: whether `connect` was called, the frames
transmitted, and the error code set, if any. -/
def handleJoinClick {H : Type} (stringify : Json → Option String) (transmitOk : Bool)
    (svc : WebSocketService H) (connectResult : Option (WebSocketService H))
    (inputUsername lobbyCode : String) :
    Bool × List String × Option String :=
  if svc.isConnected then
    (false, joinClickBody stringify transmitOk svc inputUsername lobbyCode)
  else
    match connectResult with
    | none => (true, [], some "CONNECTION_ERROR")
    | some svc2 => (true, joinClickBody stringify transmitOk svc2 inputUsername lobbyCode)

/-! ### GameBoard layout (src/components/GameBoard.js) -/

/-- A board tile; the layout only inspects the numeric `id`. -/
structure Tile where
  id : Int
  name : String
deriving Repr, DecidableEq

/-- The comparator `(a, b) => a.id - b.id` orders tiles by ascending id. -/
def tileLe (a b : Tile) : Bool := a.id ≤ b.id

/-- `const sortedBoard = [...board].sort((a, b) => a.id - b.id)`: the board is
copied and the copy sorted by ascending id, so the input list is untouched. -/
def sortedBoard (board : List Tile) : List Tile :=
  board.mergeSort tileLe

/-- JavaScript `Array.prototype.slice(start, stop)` for in-range indices. -/
def jsSlice (l : List Tile) (start stop : Nat) : List Tile :=
  (l.drop start).take (stop - start)

/-- `sortedBoard.slice(0, 11)`. -/
def bottomTiles (board : List Tile) : List Tile := jsSlice (sortedBoard board) 0 11

/-- `sortedBoard.slice(11, 20)`. -/
def leftTiles (board : List Tile) : List Tile := jsSlice (sortedBoard board) 11 20

/-- `sortedBoard.slice(20, 31)`. -/
def topTiles (board : List Tile) : List Tile := jsSlice (sortedBoard board) 20 31

/-- `sortedBoard.slice(31, 40)`. -/
def rightTiles (board : List Tile) : List Tile := jsSlice (sortedBoard board) 31 40

/-! ### Helper lemmas -/

/-- Replacing the entries of key `k` in a list that contains `k` makes the
lookup of `k` return the new value. -/
theorem lookup_map_replace {α : Type} (t : List (String × α)) (k : String) (v : α)
    (hk : (t.lookup k).isSome) :
    (t.map (fun p => if p.1 = k then (k, v) else p)).lookup k = some v := by
  induction t with
  | nil => simp at hk
  | cons p t ih =>
    obtain ⟨a, b⟩ := p
    by_cases hp : a = k
    · simp [hp, List.lookup_cons]
    · have hne : (k == a) = false := by
        simp only [beq_eq_false_iff_ne]
        exact fun hkk => hp hkk.symm
      have hk' : (t.lookup k).isSome := by
        rw [List.lookup_cons] at hk
        simpa [hne] using hk
      simp only [List.map_cons, List.lookup_cons, hp, if_false, hne]
      exact ih hk'

/-- Replacing the entries of key `k` does not change the lookup of another
key. -/
theorem lookup_map_replace_ne {α : Type} (t : List (String × α)) (k k' : String)
    (v : α) (h : k' ≠ k) :
    (t.map (fun p => if p.1 = k then (k, v) else p)).lookup k' = t.lookup k' := by
  induction t with
  | nil => rfl
  | cons p t ih =>
    obtain ⟨a, b⟩ := p
    by_cases hp : a = k
    · have hne : (k' == k) = false := by simpa only [beq_eq_false_iff_ne] using h
      have hne2 : (k' == a) = false := by
        simp only [beq_eq_false_iff_ne]
        exact fun hkk => h (hkk.trans hp)
      simp [hp, List.lookup_cons, hne, hne2, ih]
    · simp only [List.map_cons, List.lookup_cons, hp, if_false]
      cases hpk : k' == a <;> simp [hpk, ih]

/-- After `Map.set`, `Map.get` of the written key returns the written value. -/
theorem lookup_mapSet {α : Type} (m : List (String × α)) (k : String) (v : α) :
    (mapSet m k v).lookup k = some v := by
  unfold mapSet
  split
  · exact lookup_map_replace m k v (by assumption)
  · rename_i hnone
    have hm : m.lookup k = none := by
      cases hml : m.lookup k with
      | none => rfl
      | some w => exact absurd (by simp [hml]) hnone
    rw [List.lookup_append, hm]
    simp

/-- `Map.set` of one key leaves `Map.get` of every other key unchanged. -/
theorem lookup_mapSet_ne {α : Type} (m : List (String × α)) (k k' : String) (v : α)
    (h : k' ≠ k) :
    (mapSet m k v).lookup k' = m.lookup k' := by
  unfold mapSet
  split
  · exact lookup_map_replace_ne m k k' v h
  · have hne : (k' == k) = false := by simpa only [beq_eq_false_iff_ne] using h
    rw [List.lookup_append]
    cases hm : m.lookup k' with
    | some w => simp
    | none => simp [List.lookup_cons, hne]

/-- An empty handler map matches no key at all. -/
theorem mapGetJsonKey_nil {α : Type} (j : Json) :
    mapGetJsonKey ([] : List (String × α)) j = none := by
  cases j <;> rfl

/-- Closed form of `countScheduled`: the number of retries scheduled over `n`
consecutive cycles is capped by the remaining attempt budget. -/
theorem countScheduled_eq {H : Type} (n : Nat) (svc : WebSocketService H) :
    countScheduled svc n =
      min n (config.server.maxReconnectAttempts - svc.reconnectAttempts) := by
  induction n generalizing svc with
  | zero => simp [countScheduled]
  | succ n ih =>
    by_cases h : svc.reconnectAttempts ≥ config.server.maxReconnectAttempts
    · have ha : attemptReconnect svc 0 = (svc, none) := by
        unfold attemptReconnect
        rw [if_pos h]
      simp only [countScheduled, ha]
      simp only [Option.isSome_none, Bool.false_eq_true, if_false, Nat.zero_add]
      rw [ih]
      simp only [config] at h ⊢
      omega
    · have ha : attemptReconnect svc 0 =
          ({ svc with
              reconnectAttempts := svc.reconnectAttempts + 1
              reconnectTimer := some 0 },
           some config.server.reconnectInterval) := by
        unfold attemptReconnect
        rw [if_neg h]
      simp only [countScheduled, ha]
      simp only [Option.isSome_some, if_true]
      rw [ih]
      simp only [config] at h ⊢
      omega

/-! ### Claim theorems -/

/-- C1: `attemptReconnect` schedules nothing exactly when the attempt counter
has reached `config.server.maxReconnectAttempts` (5), in which case it leaves
the state unchanged; every scheduled retry uses the same fixed delay
`config.server.reconnectInterval` (3000 ms) with no jitter or growth; a
successful connection (`onopen`) resets the counter to 0; and starting from a
fresh counter, `n` consecutive disconnect/failed-reconnect cycles schedule
exactly `min n 5` retries. -/
theorem reconnect_policy {H : Type} (svc : WebSocketService H) (tid n : Nat) :
    ((attemptReconnect svc tid).2 = none ↔
        config.server.maxReconnectAttempts ≤ svc.reconnectAttempts) ∧
    (∀ d, (attemptReconnect svc tid).2 = some d →
        d = config.server.reconnectInterval) ∧
    ((attemptReconnect svc tid).2 = none → (attemptReconnect svc tid).1 = svc) ∧
    (handleOpen svc).reconnectAttempts = 0 ∧
    (handleOpen svc).isConnected = true ∧
    (svc.reconnectAttempts = 0 →
        countScheduled svc n = min n config.server.maxReconnectAttempts) := by
  refine ⟨?_, ?_, ?_, rfl, rfl, ?_⟩
  · unfold attemptReconnect
    by_cases h : svc.reconnectAttempts ≥ config.server.maxReconnectAttempts <;>
      simp [h]
  · intro d hd
    unfold attemptReconnect at hd
    by_cases h : svc.reconnectAttempts ≥ config.server.maxReconnectAttempts
    · rw [if_pos h] at hd
      simp at hd
    · rw [if_neg h] at hd
      simpa using hd.symm
  · intro hnone
    unfold attemptReconnect at hnone ⊢
    by_cases h : svc.reconnectAttempts ≥ config.server.maxReconnectAttempts
    · rw [if_pos h]
    · rw [if_neg h] at hnone
      simp at hnone
  · intro h0
    rw [countScheduled_eq, h0]
    simp

/-- Witness for C1 at the freshly constructed service. -/
theorem reconnect_policy_witness :
    countScheduled (WebSocketService.init : WebSocketService Nat) 9 =
      min 9 config.server.maxReconnectAttempts ∧
    (attemptReconnect (WebSocketService.init : WebSocketService Nat) 1).2 =
      some config.server.reconnectInterval :=
  ⟨(reconnect_policy (WebSocketService.init : WebSocketService Nat) 1 9).2.2.2.2.2 rfl,
   by decide⟩

/-- C2: a message that fails to parse as JSON, or whose parsed type has no
registered handler, causes no handler invocation and leaves the service state
unchanged; only a console diagnostic is emitted (a warning when the type is
unregistered). -/
theorem handleMessage_drop {H : Type} (parse : String → Option Json)
    (svc : WebSocketService H) (data : String)
    (h : ∀ m, parse data = some m →
        mapGetJsonKey svc.messageHandlers (m.getField "type") = none) :
    handleMessage parse svc data =
      (svc, none,
       some (match parse data with
             | none => LogEvent.parseError
             | some m => LogEvent.noHandlerWarning (m.getField "type"))) := by
  cases hp : parse data with
  | none => simp [handleMessage, hp]
  | some m => simp [handleMessage, hp, h m hp]

/-- Witness for C2: an unparseable message and a message of unregistered type
are both dropped. -/
theorem handleMessage_drop_witness :
    handleMessage (fun _ => none) (WebSocketService.init : WebSocketService Nat) "oops" =
      (WebSocketService.init, none, some LogEvent.parseError) ∧
    handleMessage (fun _ => some (Json.obj [("type", Json.str "UNKNOWN")]))
        (WebSocketService.init : WebSocketService Nat) "m" =
      (WebSocketService.init, none,
       some (LogEvent.noHandlerWarning (Json.str "UNKNOWN"))) :=
  ⟨handleMessage_drop _ _ _ (fun m hm => by cases hm),
   handleMessage_drop _ _ _ (fun m hm => by cases hm; rfl)⟩

/-- C3: a message whose parsed type is registered invokes exactly the handler
registered for that type, with the message's `data` field as argument, or the
whole parsed message when the `data` field is absent or falsy; and the lookup
after `on(t, h)` indeed yields `h`. -/
theorem handleMessage_dispatch {H : Type} (parse : String → Option Json)
    (svc : WebSocketService H) (data : String) (m : Json) (handler : H)
    (hp : parse data = some m)
    (hh : mapGetJsonKey svc.messageHandlers (m.getField "type") = some handler) :
    handleMessage parse svc data =
      (svc,
       some (handler,
             if (m.getField "data").truthy then m.getField "data" else m),
       none) ∧
    ∀ (t : String) (hnd : H),
      mapGetJsonKey (wsOn svc t hnd).messageHandlers (Json.str t) = some hnd := by
  constructor
  · simp [handleMessage, hp, hh]
  · intro t hnd
    simp [wsOn, mapGetJsonKey, lookup_mapSet]

/-- Witness for C3: a registered `PING` handler receives the truthy `data`
field of a `PING` message. -/
theorem handleMessage_dispatch_witness :
    handleMessage
        (fun _ => some (Json.obj [("type", Json.str "PING"), ("data", Json.num 5)]))
        (wsOn (WebSocketService.init : WebSocketService Nat) "PING" 7) "m" =
      (wsOn (WebSocketService.init : WebSocketService Nat) "PING" 7,
       some (7, Json.num 5), none) :=
  (handleMessage_dispatch _ _ "m"
      (Json.obj [("type", Json.str "PING"), ("data", Json.num 5)]) 7 rfl (by decide)).1

/-- C4: `validateLobbyCode` accepts (returns `none` for) exactly the strings
that are non-blank after trimming, have length `config.game.lobbyCodeLength`
(6) and consist only of ASCII letters and digits; every other string yields
an error message. -/
theorem validateLobbyCode_correct (value : List Char) :
    validateLobbyCode value = none ↔
      (jsTrim value ≠ [] ∧ value.length = config.game.lobbyCodeLength ∧
       ∀ c ∈ value, Char.isAlphanum c) := by
  unfold validateLobbyCode
  split_ifs with h1 h2 h3
  · simp only [List.isEmpty_iff] at h1
    simp [h1]
  · simp [h2]
  · simp only [Bool.not_eq_true'] at h3
    constructor
    · intro hc
      cases hc
    · rintro ⟨-, hl, ha⟩
      have hne : value.isEmpty = false := by
        cases value with
        | nil => simp [config] at hl
        | cons c t => rfl
      have : regexAlnumTest value = true := by
        simp [regexAlnumTest, hne, List.all_eq_true]
        exact ha
      rw [this] at h3
      cases h3
  · simp only [List.isEmpty_iff] at h1
    push_neg at h2
    have hreg : regexAlnumTest value = true := by
      cases hx : regexAlnumTest value
      · exact absurd (by simp [hx]) h3
      · rfl
    unfold regexAlnumTest at hreg
    simp only [Bool.and_eq_true, List.all_eq_true] at hreg
    exact iff_of_true rfl ⟨h1, h2, hreg.2⟩

/-- Witness for C4: the code `AB12cd` is accepted. -/
theorem validateLobbyCode_correct_witness :
    validateLobbyCode ['A', 'B', '1', '2', 'c', 'd'] = none :=
  (validateLobbyCode_correct _).mpr (by decide)

/-- C5 counterexample: `applyTheme` writes the theme preference to
`localStorage`, so it is not the case that every operation leaves browser
persistent storage unchanged. -/
theorem applyTheme_writes_storage :
    (applyTheme "dark" { rootStyle := [], localStorage := [] }).1.localStorage ≠ [] := by
  decide

/-- C5 (amended): the client's only write to persistent storage is the theme
preference: for a known theme name `applyTheme` stores it under the
`localStorage` key `theme` and leaves every other key unchanged; for an
unknown theme name it leaves the browser state unchanged and logs an error;
`getStoredTheme` yields `dark` when nothing is stored. -/
theorem applyTheme_storage (themeName : String) (b : BrowserState) :
    (∀ props, themes.lookup themeName = some props →
        (applyTheme themeName b).1.localStorage =
          setItem b.localStorage "theme" themeName ∧
        ∀ k, k ≠ "theme" →
          getItem (applyTheme themeName b).1.localStorage k =
            getItem b.localStorage k) ∧
    (themes.lookup themeName = none → applyTheme themeName b = (b, true)) ∧
    (getItem b.localStorage "theme" = none → getStoredTheme b = "dark") := by
  refine ⟨?_, ?_, ?_⟩
  · intro props hp
    have ha : applyTheme themeName b =
        ({ rootStyle := props.foldl (fun acc pv => mapSet acc pv.1 pv.2) b.rootStyle
           localStorage := setItem b.localStorage "theme" themeName }, false) := by
      unfold applyTheme
      rw [hp]
    rw [ha]
    exact ⟨rfl, fun k hk => lookup_mapSet_ne _ _ _ _ hk⟩
  · intro hnone
    unfold applyTheme
    rw [hnone]
  · intro hn
    unfold getStoredTheme
    rw [hn]

/-- Witness for C5 (amended) at the light theme over a one-key store. -/
theorem applyTheme_storage_witness :
    (applyTheme "light" { rootStyle := [], localStorage := [("k", "v")] }).1.localStorage =
      setItem [("k", "v")] "theme" "light" ∧
    getItem (applyTheme "light"
        { rootStyle := [], localStorage := [("k", "v")] }).1.localStorage "k" =
      getItem [("k", "v")] "k" :=
  ⟨((applyTheme_storage "light" _).1 lightThemeProps (by decide)).1,
   ((applyTheme_storage "light" _).1 lightThemeProps (by decide)).2 "k" (by decide)⟩

/-- C6: every reachable value of `currentScene` is `login` or `game`, and
exactly one scene view is rendered: the LoginScreen exactly on `login` and
the GameBoard exactly on `game`. -/
theorem scene_invariant (s : String) (h : ReachableScene s) :
    (s = "login" ∨ s = "game") ∧
    rendersLogin s = !rendersGame s ∧
    (rendersLogin s = true ↔ s = "login") ∧
    (rendersGame s = true ↔ s = "game") := by
  have hs : s = "login" ∨ s = "game" := by
    induction h with
    | init => exact Or.inl rfl
    | step e hr ih => cases e <;> first | exact Or.inr rfl | exact ih
  rcases hs with h1 | h1
  · subst h1
    exact ⟨Or.inl rfl, by decide, by decide, by decide⟩
  · subst h1
    exact ⟨Or.inr rfl, by decide, by decide, by decide⟩

/-- Witness for C6: the `game` scene is reachable (via `handleNewGame`) and
renders exactly the GameBoard. -/
theorem scene_invariant_witness :
    (("game" : String) = "login" ∨ ("game" : String) = "game") ∧
    rendersLogin "game" = !rendersGame "game" ∧
    (rendersLogin "game" = true ↔ ("game" : String) = "login") ∧
    (rendersGame "game" = true ↔ ("game" : String) = "game") :=
  scene_invariant "game" (ReachableScene.step AppEvent.newGame ReachableScene.init)

/-- A connected service fixture. -/
def svcConnected : WebSocketService Nat :=
  { ws := some 1
    messageHandlers := []
    isConnected := true
    reconnectAttempts := 0
    reconnectTimer := none }

/-- A connected service fixture with a registered handler and a pending
reconnect timer. -/
def svcFull : WebSocketService Nat :=
  { ws := some 3
    messageHandlers := [("PING", 7)]
    isConnected := true
    reconnectAttempts := 2
    reconnectTimer := some 4 }

/-- C7: `handleJoinClick` connects first exactly when the service is not
connected; a rejected `connect` is reported as a `CONNECTION_ERROR` with
nothing sent; with a connection available it runs the create-or-join body on
that service, which sends `GAME_CREATE` carrying the username when the lobby
code is empty and `REQUEST_JOIN` carrying the username and lobby code
otherwise, reporting a `CONNECTION_ERROR` when the send fails. -/
theorem handleJoinClick_spec {H : Type} (stringify : Json → Option String)
    (transmitOk : Bool) (svc : WebSocketService H)
    (connectResult : Option (WebSocketService H)) (u lc : String) :
    (handleJoinClick stringify transmitOk svc connectResult u lc).1 =
      !svc.isConnected ∧
    (svc.isConnected = false → connectResult = none →
        handleJoinClick stringify transmitOk svc connectResult u lc =
          (true, [], some "CONNECTION_ERROR")) ∧
    (∀ s2, effectiveService svc connectResult = some s2 →
        (handleJoinClick stringify transmitOk svc connectResult u lc).2 =
          joinClickBody stringify transmitOk s2 u lc) ∧
    (∀ s2 : WebSocketService H,
        (lc = "" →
          joinClickBody stringify transmitOk s2 u lc =
            ((createGame stringify transmitOk s2 u).2.toList,
             if (createGame stringify transmitOk s2 u).1 then none
             else some "CONNECTION_ERROR")) ∧
        (lc ≠ "" →
          joinClickBody stringify transmitOk s2 u lc =
            ((requestJoin stringify transmitOk s2 u lc).2.toList,
             if (requestJoin stringify transmitOk s2 u lc).1 then none
             else some "CONNECTION_ERROR"))) ∧
    createGame stringify transmitOk svc u =
      send stringify transmitOk svc "GAME_CREATE"
        (Json.obj [("username", Json.str u)]) ∧
    requestJoin stringify transmitOk svc u lc =
      send stringify transmitOk svc "REQUEST_JOIN"
        (Json.obj [("username", Json.str u), ("lobby", Json.str lc)]) := by
  refine ⟨?_, ?_, ?_, ?_, rfl, rfl⟩
  · unfold handleJoinClick
    cases hc : svc.isConnected
    · cases connectResult <;> simp
    · simp
  · intro h1 h2
    subst h2
    simp [handleJoinClick, h1]
  · intro s2 hs2
    unfold effectiveService at hs2
    unfold handleJoinClick
    cases hc : svc.isConnected
    · simp [hc] at hs2 ⊢
      rw [hs2]
    · simp [hc] at hs2 ⊢
      rw [hs2]
  · intro s2
    constructor
    · intro hlc
      simp [joinClickBody, hlc]
    · intro hlc
      simp [joinClickBody, hlc]

/-- Witness for C7: an already-connected service goes straight to the
create-or-join body. -/
theorem handleJoinClick_spec_witness :
    (handleJoinClick (fun _ => some "F") true svcConnected none "alice" "").2 =
      joinClickBody (fun _ => some "F") true svcConnected "alice" "" :=
  (handleJoinClick_spec (fun _ => some "F") true svcConnected none "alice" "").2.2.1
    svcConnected rfl

/-- C8: `send` returns `false` and transmits nothing when disconnected or
without a socket; whatever it transmits is exactly the JSON serialization of
`\x7btype, data\x7d`; it returns `true` exactly when a frame was transmitted,
which requires a connection and a non-throwing transmission; and a throwing
serialization also yields `false`.  `send` itself never throws: it is a total
function. -/
theorem send_spec {H : Type} (stringify : Json → Option String) (transmitOk : Bool)
    (svc : WebSocketService H) (type : String) (data : Json) :
    (¬(svc.isConnected = true ∧ svc.ws ≠ none) →
        send stringify transmitOk svc type data = (false, none)) ∧
    (∀ frame, (send stringify transmitOk svc type data).2 = some frame →
        stringify (Json.obj [("type", Json.str type), ("data", data)]) = some frame) ∧
    ((send stringify transmitOk svc type data).1 = true ↔
        (send stringify transmitOk svc type data).2.isSome) ∧
    ((send stringify transmitOk svc type data).1 = true →
        svc.isConnected = true ∧ svc.ws ≠ none ∧ transmitOk = true) ∧
    (svc.isConnected = true → svc.ws ≠ none →
        ∀ frame,
          stringify (Json.obj [("type", Json.str type), ("data", data)]) = some frame →
            send stringify transmitOk svc type data =
              (if transmitOk then (true, some frame) else (false, none))) ∧
    (stringify (Json.obj [("type", Json.str type), ("data", data)]) = none →
        send stringify transmitOk svc type data = (false, none)) := by
  unfold send
  cases hc : svc.isConnected <;> cases hw : svc.ws <;>
    cases hs : stringify (Json.obj [("type", Json.str type), ("data", data)]) <;>
      cases transmitOk <;> simp_all

/-- Witness for C8: a connected service transmits the serialized frame and
reports success. -/
theorem send_spec_witness :
    send (fun _ => some "FRAME") true svcConnected "PING" Json.null =
      (true, some "FRAME") :=
  (send_spec (fun _ => some "FRAME") true svcConnected "PING" Json.null).2.2.2.2.1
    rfl (by simp [svcConnected]) "FRAME" rfl

/-- C9: `disconnect` cancels the pending reconnect timer, closes and nulls
the socket, clears the connected flag and empties the handler map, after
which no inbound message invokes any handler. -/
theorem disconnect_spec {H : Type} (svc : WebSocketService H) :
    (disconnect svc).1.ws = none ∧
    (disconnect svc).1.isConnected = false ∧
    (disconnect svc).1.messageHandlers = [] ∧
    (disconnect svc).2.closedSocket = svc.ws ∧
    (disconnect svc).2.cancelledTimer =
      (if truthyId svc.reconnectTimer then svc.reconnectTimer else none) ∧
    ∀ (parse : String → Option Json) (data : String),
      (handleMessage parse (disconnect svc).1 data).2.1 = none := by
  refine ⟨rfl, rfl, rfl, rfl, rfl, ?_⟩
  intro parse data
  cases hp : parse data with
  | none => simp [handleMessage, hp]
  | some m => simp [handleMessage, hp, disconnect, mapGetJsonKey_nil]

/-- Witness for C9 at a service with a handler, a socket, and a timer. -/
theorem disconnect_spec_witness :
    (disconnect svcFull).1.messageHandlers = [] ∧
    (handleMessage (fun _ => some (Json.obj [("type", Json.str "PING")]))
        (disconnect svcFull).1 "m").2.1 = none :=
  ⟨(disconnect_spec svcFull).2.2.1,
   (disconnect_spec svcFull).2.2.2.2.2 _ "m"⟩

/-- Four consecutive slices with bounds 0, 11, 20, 31, 40 reassemble a
40-element list. -/
theorem four_slices_append (l : List Tile) (h : l.length = 40) :
    ((jsSlice l 0 11 ++ jsSlice l 11 20) ++ jsSlice l 20 31) ++ jsSlice l 31 40 = l := by
  have e0 : jsSlice l 0 11 = l.take 11 := by
    unfold jsSlice
    norm_num
  have e1 : jsSlice l 11 20 = (l.drop 11).take 9 := by
    unfold jsSlice
    norm_num
  have e2 : jsSlice l 20 31 = (l.drop 20).take 11 := by
    unfold jsSlice
    norm_num
  have e3 : jsSlice l 31 40 = (l.drop 31).take 9 := by
    unfold jsSlice
    norm_num
  rw [e0, e1, e2, e3, List.append_assoc, List.append_assoc]
  have t9d31 : List.take 9 (List.drop 31 l) = List.drop 31 l :=
    List.take_of_length_le (by simp [h])
  have h31 : List.drop 11 (List.drop 20 l) = List.drop 31 l := by
    rw [List.drop_drop]
  have h20 : List.drop 9 (List.drop 11 l) = List.drop 20 l := by
    rw [List.drop_drop]
  calc List.take 11 l ++
        (List.take 9 (List.drop 11 l) ++
          (List.take 11 (List.drop 20 l) ++ List.take 9 (List.drop 31 l)))
      = List.take 11 l ++
          (List.take 9 (List.drop 11 l) ++
            (List.take 11 (List.drop 20 l) ++ List.drop 11 (List.drop 20 l))) := by
        rw [t9d31, h31]
    _ = List.take 11 l ++
          (List.take 9 (List.drop 11 l) ++ List.drop 9 (List.drop 11 l)) := by
        rw [List.take_append_drop, h20]
    _ = List.take 11 l ++ List.drop 11 l := by
        rw [List.take_append_drop]
    _ = l := List.take_append_drop 11 l

/-- C10: on a 40-tile board with distinct ids, the four tile groups are
consecutive slices of the board sorted by ascending id with lengths 11, 9,
11, 9; their concatenation is the sorted board, hence a permutation of the
input board containing every tile exactly once; the input list itself is
only read (the source sorts a copy). -/
theorem gameBoard_layout (board : List Tile) (hlen : board.length = 40)
    (hids : (board.map Tile.id).Nodup) :
    ((bottomTiles board ++ leftTiles board) ++ topTiles board) ++ rightTiles board =
      sortedBoard board ∧
    (bottomTiles board).length = 11 ∧
    (leftTiles board).length = 9 ∧
    (topTiles board).length = 11 ∧
    (rightTiles board).length = 9 ∧
    (sortedBoard board).Perm board ∧
    (sortedBoard board).Pairwise (fun a b => a.id ≤ b.id) := by
  have hslen : (sortedBoard board).length = 40 := by
    simp [sortedBoard, hlen]
  refine ⟨?_, ?_, ?_, ?_, ?_, ?_, ?_⟩
  · unfold bottomTiles leftTiles topTiles rightTiles
    exact four_slices_append _ hslen
  · simp [bottomTiles, jsSlice, hslen]
  · simp [leftTiles, jsSlice, hslen]
  · simp [topTiles, jsSlice, hslen]
  · simp [rightTiles, jsSlice, hslen]
  · exact List.mergeSort_perm board tileLe
  · refine List.Pairwise.imp ?_ (List.sorted_mergeSort ?_ ?_ board)
    · intro a b hab
      simpa [tileLe, decide_eq_true_eq] using hab
    · intro a b c hab hbc
      simp only [tileLe, decide_eq_true_eq] at hab hbc ⊢
      omega
    · intro a b
      simp only [tileLe, Bool.or_eq_true, decide_eq_true_eq]
      omega

/-- A concrete 40-tile board with distinct ids. -/
def board40 : List Tile :=
  (List.range 40).map (fun i => { id := (i : Int), name := "" })

/-- Witness for C10 on `board40`. -/
theorem gameBoard_layout_witness :
    (bottomTiles board40).length = 11 ∧ (sortedBoard board40).Perm board40 :=
  ⟨(gameBoard_layout board40 (by decide) (by decide)).2.1,
   (gameBoard_layout board40 (by decide) (by decide)).2.2.2.2.2.1⟩

end Monopoly
